import Mathlib

/-!
Shallow embedding of the Campaign_performance_predictor backend's prediction
pipeline (`app/config.py`, `app/services/predictor.py`).

External library calls (pandas datetime parsing, the Keras tokenizer, the
fitted scaler's inverse transform, numpy's float `log1p`/`expm1`, and the
trained model's forward pass) are abstracted as function parameters; the
repository's own logic (platform lookup, defaulting, feature ordering,
padding/truncation, the postprocessing loop, the load lifecycle and the
singleton constructor) is translated directly from the source.
Machine floats are idealised as rationals.
-/

namespace CampaignPredictor

/-! ### app/config.py -/

/-- `MAX_VOCAB = 30000` (config.py). -/
def MAX_VOCAB : ℕ := 30000

/-- `MAX_LEN = 80` (config.py). -/
def MAX_LEN : ℕ := 80

/-- `TARGETS` (config.py): the five output targets in fixed order. -/
def TARGETS : List String :=
  ["likes", "comments", "shares", "clicks", "timing_quality_score"]

/-- `PLATFORM_MAP` (config.py): alphabetically ordered platform → id table. -/
def PLATFORM_MAP : List (String × ℕ) :=
  [("Facebook", 0), ("Instagram", 1), ("TikTok", 2), ("Twitter", 3), ("YouTube", 4)]

/-- `_NUM_FEATURES = 6` (predictor.py). -/
def NUM_FEATURES : ℕ := 6

/-! ### Feature encoding (`Predictor._encode_numeric`, `Predictor._encode_text`) -/

/-- `PLATFORM_MAP.get(platform, 0)` (predictor.py line 132): dictionary lookup
with default 0 for unknown platforms. -/
def platformId (platform : String) : ℕ :=
  (PLATFORM_MAP.lookup platform).getD 0

/-- Hour extraction (predictor.py lines 135–137):
`pd.to_datetime(post_time, format="%H:%M", errors="coerce").hour`, defaulting
to 12 when parsing fails.  The pandas parser is abstracted as
`parseTime : String → Option (Fin 24)`; `none` models the coerced `NaT`. -/
def hourOf (parseTime : String → Option (Fin 24)) (post_time : String) : ℕ :=
  match parseTime post_time with
  | some h => h.val
  | none => 12

/-- Day-of-week extraction (predictor.py lines 139–140):
`dt.dayofweek if not pd.isna(dt) else 0`.  The pandas parser is abstracted as
`parseDate : String → Option (Fin 7)`; `none` models the coerced `NaT`. -/
def dayOfWeekOf (parseDate : String → Option (Fin 7)) (post_date : String) : ℕ :=
  match parseDate post_date with
  | some d => d.val
  | none => 0

/-- `int(day_of_week in [5, 6])` (predictor.py line 141). -/
def isWeekend (day_of_week : ℕ) : ℕ :=
  if day_of_week = 5 ∨ day_of_week = 6 then 1 else 0

/-- `Predictor._encode_numeric` (predictor.py lines 121–153).  `log1p`
abstracts the float function `np.log1p`; the feature list mirrors the
source's `features` list literally, in order. -/
def encodeNumeric (log1p : ℤ → ℚ)
    (parseTime : String → Option (Fin 24)) (parseDate : String → Option (Fin 7))
    (platform post_date post_time : String)
    (followers ad_boost : ℤ) : List ℚ :=
  let platform_id := platformId platform
  let hour := hourOf parseTime post_time
  let day_of_week := dayOfWeekOf parseDate post_date
  let is_weekend := isWeekend day_of_week
  let followers_log := log1p (max followers 0)
  [(platform_id : ℚ), (hour : ℚ), (day_of_week : ℚ), (is_weekend : ℚ),
    followers_log, (ad_boost : ℚ)]

/-- Keras `pad_sequences(seq, maxlen, padding="post", truncating="post")` for a
single sequence: keep the first `maxlen` tokens, then append zeros at the tail
up to length `maxlen`. -/
def padSequencesPost (maxlen : ℕ) (seq : List ℕ) : List ℕ :=
  let truncated := seq.take maxlen
  truncated ++ List.replicate (maxlen - truncated.length) 0

/-- `Predictor._encode_text` (predictor.py lines 115–119):
`f"{caption} {content}".strip()`, tokenisation (the fitted tokenizer is
abstracted as `texts_to_sequences`), then post-side pad/truncate to `MAX_LEN`. -/
def encodeText (texts_to_sequences : String → List ℕ)
    (caption content : String) : List ℕ :=
  let text := (caption ++ " " ++ content).trim
  padSequencesPost MAX_LEN (texts_to_sequences text)

/-! ### Output postprocessing (`Predictor.predict`, lines 172–183) -/

/-- Round-half-to-even to the nearest integer, the tie-breaking used by
Python's built-in `round`. -/
def roundHalfEven (q : ℚ) : ℤ :=
  if q - ⌊q⌋ < 1 / 2 then ⌊q⌋
  else if 1 / 2 < q - ⌊q⌋ then ⌊q⌋ + 1
  else if Even ⌊q⌋ then ⌊q⌋ else ⌊q⌋ + 1

/-- Python's `round(x, 2)`: round half-to-even at two decimal places. -/
def round2 (q : ℚ) : ℚ :=
  ((roundHalfEven (q * 100) : ℤ) : ℚ) / 100

/-- The body of the postprocessing loop (predictor.py lines 176–181) for one
target: `expm1(max(val, 0))` for the four count targets, then
`round(max(val, 0), 2)`.  `expm1` abstracts the float function `np.expm1`. -/
def postprocessVal (expm1 : ℚ → ℚ) (target : String) (v : ℚ) : ℚ :=
  let val := if target ∈ ["likes", "comments", "shares", "clicks"] then
    expm1 (max v 0) else v
  round2 (max val 0)

/-- The postprocessing loop over `TARGETS`, producing the value stored in
`result` at position `i` (keyed by `TARGETS[i]`). -/
def postprocess (expm1 : ℚ → ℚ) (inverse : Fin 5 → ℚ) (i : Fin 5) : ℚ :=
  postprocessVal expm1 (TARGETS.getD i.val "") (inverse i)

/-- Lines 172–183 of `Predictor.predict` after the forward pass: scaler
inversion (`y_scaler.inverse_transform`, abstracted as `scalerInv`) followed by
the postprocessing loop. -/
def predictPost (scalerInv : (Fin 5 → ℚ) → (Fin 5 → ℚ)) (expm1 : ℚ → ℚ)
    (raw : Fin 5 → ℚ) (i : Fin 5) : ℚ :=
  postprocess expm1 (scalerInv raw) i

/-! ### Model architecture (`_build_transformer`, lines 36–55) -/

/-- The layers of `_build_transformer` whose parameters live in external
weight artifacts, abstracted as functions on an abstract activation type `V`:
`Embedding(MAX_VOCAB, 128, mask_zero=True)`, `MultiHeadAttention(4, 128)`,
`GlobalAveragePooling1D`, inference-mode `BatchNormalization`,
`Concatenate`+`Dense(256, relu)`, and the final `Dense(5)`. -/
structure Arch (V : Type) where
  embedding : List ℕ → V
  mha : V → V
  pool : V → V
  batchNorm : V → V
  dense1 : V → List ℚ → V
  dense2 : V → Fin 5 → ℚ

/-- Keras `Dropout(rate)`: at training time it applies a stochastic mask
(abstracted as `sample`); at inference time (`training=False`) it is the
identity. -/
def dropoutLayer {V : Type} (rate : ℚ) (training : Bool) (sample : V → V)
    (x : V) : V :=
  if training then sample x else x

/-- The forward pass of `_build_transformer`'s graph, layer order as in the
source: embedding → self-attention → pooling → batch-norm → concat+dense →
`Dropout(0.4)` → dense output. -/
def transformerForward {V : Type} (A : Arch V) (training : Bool)
    (sample : V → V) (seq : List ℕ) (num : List ℚ) : Fin 5 → ℚ :=
  A.dense2 (dropoutLayer (2 / 5) training sample
    (A.dense1 (A.batchNorm (A.pool (A.mha (A.embedding seq)))) num))

/-- `model.predict` in Keras runs the graph with `training=False`. -/
def modelPredict {V : Type} (A : Arch V) (sample : V → V)
    (seq : List ℕ) (num : List ℚ) : Fin 5 → ℚ :=
  transformerForward A false sample seq num

/-- The per-request computation of `Predictor.predict` (lines 157–183) after
`load()`: text and numeric encoding, forward pass, scaler inversion and
postprocessing.  `sample` is the dropout layer's stochastic mask, drawn
per-call. -/
def predictPipeline {V : Type} (A : Arch V) (sample : V → V)
    (texts_to_sequences : String → List ℕ)
    (scalerInv : (Fin 5 → ℚ) → (Fin 5 → ℚ)) (expm1 : ℚ → ℚ) (log1p : ℤ → ℚ)
    (parseTime : String → Option (Fin 24)) (parseDate : String → Option (Fin 7))
    (caption content platform post_date post_time : String)
    (followers ad_boost : ℤ) (i : Fin 5) : ℚ :=
  let x_text := encodeText texts_to_sequences caption content
  let x_num := encodeNumeric log1p parseTime parseDate platform post_date
    post_time followers ad_boost
  predictPost scalerInv expm1 (modelPredict A sample x_text x_num) i

/-! ### Load lifecycle (`Predictor.load`, lines 69–111) -/

/-- The external effects invoked by `Predictor.load`, abstracted as
fallible operations: the deterministic architecture build, the dummy forward
pass (`model.predict`), direct weight restoration (`model.load_weights`),
the fallback full-model load with the compatibility embedding
(`tf.keras.models.load_model(..., custom_objects={"Embedding": _CompatEmbedding})`),
tokenizer deserialisation and scaler unpickling. -/
structure LoadEnv (M T S E : Type) where
  buildTransformer : M
  modelPredictE : M → List ℕ → List ℚ → Except E Unit
  loadWeightsInto : M → Except E M
  loadFullCompat : Except E M
  readTokenizer : Except E T
  readScaler : Except E S

/-- The mutable attributes of the `Predictor` singleton: `_loaded`,
`self.model`, `self.tokenizer`, `self.y_scaler`. -/
structure PState (M T S : Type) where
  loaded : Bool
  model : Option M
  tokenizer : Option T
  y_scaler : Option S
deriving DecidableEq

/-- The observable steps of `load()`, in the order they are attempted. -/
inductive LoadEv
  | buildArch
  | dummyPass
  | loadWeights
  | fullLoadCompat
  | loadTokenizer
  | loadScaler
deriving DecidableEq

/-- `_CompatEmbedding.__init__` (predictor.py lines 93–95): forwards its
arguments to the `Embedding` superclass constructor and discards the
`quantization_config` keyword. -/
def compatEmbedding {A E Q : Type} (superInit : A → E) (args : A)
    (quantization_config : Option Q) : E :=
  superInit args

/-- Lines 102–111 of `load()`: tokenizer deserialisation, scaler unpickling,
then `self._loaded = True`.  On an exception the attributes assigned so far
remain but `loaded` is untouched. -/
def loadRest {M T S E : Type} (env : LoadEnv M T S E) (s : PState M T S)
    (evs : List LoadEv) : Option E × PState M T S × List LoadEv :=
  match env.readTokenizer with
  | .error e => (some e, s, evs ++ [.loadTokenizer])
  | .ok tk =>
    let s2 := { s with tokenizer := some tk }
    match env.readScaler with
    | .error e => (some e, s2, evs ++ [.loadTokenizer, .loadScaler])
    | .ok sc =>
      (none, { s2 with y_scaler := some sc, loaded := true },
        evs ++ [.loadTokenizer, .loadScaler])

/-- `Predictor.load` (lines 69–111): early return when `_loaded`; otherwise
build the architecture, run the dummy forward pass on zero-filled inputs,
try `load_weights`, fall back to the compat full-model load only if that
raised, then load tokenizer and scaler and finally set `_loaded = True`.
Returns the raised exception (if any), the resulting attribute state, and
the list of steps attempted, in order. -/
def load {M T S E : Type} (env : LoadEnv M T S E) (s : PState M T S) :
    Option E × PState M T S × List LoadEv :=
  if s.loaded then (none, s, [])
  else
    let m0 := env.buildTransformer
    let sBuilt := { s with model := some m0 }
    match env.modelPredictE m0 (List.replicate MAX_LEN 0)
        (List.replicate NUM_FEATURES 0) with
    | .error e => (some e, sBuilt, [.buildArch, .dummyPass])
    | .ok _ =>
      match env.loadWeightsInto m0 with
      | .ok m1 =>
        loadRest env { sBuilt with model := some m1 }
          [.buildArch, .dummyPass, .loadWeights]
      | .error _ =>
        match env.loadFullCompat with
        | .ok m2 =>
          loadRest env { sBuilt with model := some m2 }
            [.buildArch, .dummyPass, .loadWeights, .fullLoadCompat]
        | .error e2 =>
          (some e2, sBuilt,
            [.buildArch, .dummyPass, .loadWeights, .fullLoadCompat])

/-- The output `predict()` computes from the artifacts held in the predictor
state (`none` when an artifact is absent).  `runModel`, `tokApply` and
`scalerApply` interpret the abstract model, tokenizer and scaler artifacts. -/
def predictOut {M T S : Type} (runModel : M → List ℕ → List ℚ → Fin 5 → ℚ)
    (tokApply : T → String → List ℕ)
    (scalerApply : S → (Fin 5 → ℚ) → Fin 5 → ℚ)
    (expm1 : ℚ → ℚ) (log1p : ℤ → ℚ)
    (parseTime : String → Option (Fin 24)) (parseDate : String → Option (Fin 7))
    (s : PState M T S)
    (caption content platform post_date post_time : String)
    (followers ad_boost : ℤ) : Option (Fin 5 → ℚ) :=
  match s.model, s.tokenizer, s.y_scaler with
  | some m, some tk, some sc =>
    some (fun i => postprocess expm1
      (scalerApply sc (runModel m (encodeText (tokApply tk) caption content)
        (encodeNumeric log1p parseTime parseDate platform post_date post_time
          followers ad_boost))) i)
  | _, _, _ => none

/-! ### Singleton construction (`Predictor.__new__`, lines 61–67) -/

/-- A `Predictor` instance, identified for object identity by an allocation
id; `loaded` is its `_loaded` attribute at construction time. -/
structure Inst where
  uid : ℕ
  loaded : Bool
deriving DecidableEq

/-- `Predictor.__new__`: class-level state is `(cls._instance, next fresh id)`.
When `_instance` is `None`, allocate a fresh instance, set its `_loaded` to
`False` and cache it; otherwise return the cached instance unchanged. -/
def predictorNew (st : Option Inst × ℕ) : Inst × (Option Inst × ℕ) :=
  match st.1 with
  | none =>
    let fresh : Inst := ⟨st.2, false⟩
    (fresh, (some fresh, st.2 + 1))
  | some i => (i, st)

/-- The instance returned by the `(n+1)`-th constructor call, starting from a
fresh interpreter state (`cls._instance = None`). -/
def nthNew : ℕ → Inst × (Option Inst × ℕ)
  | 0 => predictorNew (none, 0)
  | n + 1 => predictorNew (nthNew n).2

/-! ### Shared lemmas -/

lemma roundHalfEven_nonneg {q : ℚ} (hq : 0 ≤ q) : 0 ≤ roundHalfEven q := by
  have hf : (0 : ℤ) ≤ ⌊q⌋ := Int.floor_nonneg.mpr hq
  unfold roundHalfEven
  split_ifs <;> omega

lemma round2_nonneg {q : ℚ} (hq : 0 ≤ q) : 0 ≤ round2 q := by
  have h := roundHalfEven_nonneg (q := q * 100) (by positivity)
  unfold round2
  have h100 : (0 : ℚ) ≤ 100 := by norm_num
  exact div_nonneg (by exact_mod_cast h) h100

lemma postprocessVal_nonneg (expm1 : ℚ → ℚ) (target : String) (v : ℚ) :
    0 ≤ postprocessVal expm1 target v := by
  unfold postprocessVal
  exact round2_nonneg (le_max_right _ _)

/-! ### Claim theorems -/

/-- C1: the numeric feature vector always has length 6, its fields appear in
the fixed order [platform_id, post_hour, day_of_week, is_weekend,
log1p(max(followers, 0)), ad_boost], its followers field equals
`log1p (max followers 0)` for every integer followers value (negative ones
included), and for all 7 day-of-week values `is_weekend = 1` iff the day is
5 or 6. -/
theorem encodeNumeric_spec (log1p : ℤ → ℚ)
    (parseTime : String → Option (Fin 24)) (parseDate : String → Option (Fin 7))
    (platform post_date post_time : String) (followers ad_boost : ℤ) :
    (encodeNumeric log1p parseTime parseDate platform post_date post_time
      followers ad_boost).length = 6 ∧
    encodeNumeric log1p parseTime parseDate platform post_date post_time
        followers ad_boost =
      [(platformId platform : ℚ), (hourOf parseTime post_time : ℚ),
        (dayOfWeekOf parseDate post_date : ℚ),
        (isWeekend (dayOfWeekOf parseDate post_date) : ℚ),
        log1p (max followers 0), (ad_boost : ℚ)] ∧
    (encodeNumeric log1p parseTime parseDate platform post_date post_time
      followers ad_boost).getD 4 0 = log1p (max followers 0) ∧
    (∀ d : Fin 7, isWeekend d.val = 1 ↔ (d.val = 5 ∨ d.val = 6)) := by
  refine ⟨rfl, rfl, rfl, ?_⟩
  decide

/-- C3: each of the five known platform strings maps to its table id
(Facebook 0, Instagram 1, TikTok 2, Twitter 3, YouTube 4), and every other
string maps to 0. -/
theorem platformId_spec :
    (platformId "Facebook" = 0 ∧ platformId "Instagram" = 1 ∧
      platformId "TikTok" = 2 ∧ platformId "Twitter" = 3 ∧
      platformId "YouTube" = 4) ∧
    ∀ s : String,
      s ∉ ["Facebook", "Instagram", "TikTok", "Twitter", "YouTube"] →
      platformId s = 0 := by
  constructor
  · exact ⟨rfl, rfl, rfl, rfl, rfl⟩
  · intro s hs
    simp only [List.mem_cons, List.not_mem_nil, or_false, not_or] at hs
    obtain ⟨h1, h2, h3, h4, h5⟩ := hs
    have b1 : (s == "Facebook") = false := beq_eq_false_iff_ne.mpr h1
    have b2 : (s == "Instagram") = false := beq_eq_false_iff_ne.mpr h2
    have b3 : (s == "TikTok") = false := beq_eq_false_iff_ne.mpr h3
    have b4 : (s == "Twitter") = false := beq_eq_false_iff_ne.mpr h4
    have b5 : (s == "YouTube") = false := beq_eq_false_iff_ne.mpr h5
    simp [platformId, PLATFORM_MAP, List.lookup, b1, b2, b3, b4, b5]

/-- Witness for C3: the lowercase string "instagram" is not in the table and
encodes to platform id 0. -/
theorem platformId_spec_witness :
    "instagram" ∉ ["Facebook", "Instagram", "TikTok", "Twitter", "YouTube"] ∧
      platformId "instagram" = 0 := by
  have hmem : "instagram" ∉
      ["Facebook", "Instagram", "TikTok", "Twitter", "YouTube"] := by decide
  exact ⟨hmem, platformId_spec.2 "instagram" hmem⟩

/-- C4: text encoding concatenates caption and content with a single space,
trims, tokenizes, and always yields a token sequence of length exactly
`MAX_LEN = 80`, truncating longer sequences at the tail (the first 80 tokens
are kept) and zero-padding shorter ones at the tail. -/
theorem encodeText_spec (texts_to_sequences : String → List ℕ)
    (caption content : String) :
    (encodeText texts_to_sequences caption content).length = MAX_LEN ∧
    encodeText texts_to_sequences caption content =
      (texts_to_sequences ((caption ++ " " ++ content).trim)).take MAX_LEN ++
        List.replicate
          (MAX_LEN -
            ((texts_to_sequences
              ((caption ++ " " ++ content).trim)).take MAX_LEN).length) 0 := by
  refine ⟨?_, rfl⟩
  simp only [encodeText, padSequencesPost, List.length_append,
    List.length_take, List.length_replicate]
  omega

/-- C5: when the time string fails to parse the encoded hour is 12; when the
date string fails to parse the encoded day_of_week is 0 and is_weekend is 0;
encoding is a total function, so no malformed date, time, or platform string
makes it fail. -/
theorem encodeDefaults_spec (log1p : ℤ → ℚ)
    (parseTime : String → Option (Fin 24)) (parseDate : String → Option (Fin 7))
    (platform post_date post_time : String) (followers ad_boost : ℤ) :
    (parseTime post_time = none →
      hourOf parseTime post_time = 12 ∧
      (encodeNumeric log1p parseTime parseDate platform post_date post_time
        followers ad_boost).getD 1 0 = 12) ∧
    (parseDate post_date = none →
      dayOfWeekOf parseDate post_date = 0 ∧
      isWeekend (dayOfWeekOf parseDate post_date) = 0 ∧
      (encodeNumeric log1p parseTime parseDate platform post_date post_time
        followers ad_boost).getD 2 0 = 0 ∧
      (encodeNumeric log1p parseTime parseDate platform post_date post_time
        followers ad_boost).getD 3 0 = 0) := by
  constructor
  · intro h
    constructor
    · simp [hourOf, h]
    · simp [encodeNumeric, hourOf, h]
  · intro h
    refine ⟨?_, ?_, ?_, ?_⟩ <;>
      simp [encodeNumeric, dayOfWeekOf, isWeekend, h]

/-- Always-failing time parser, modelling pandas coercing "bad-time" to NaT. -/
def noParseTime : String → Option (Fin 24) := fun _ => none

/-- Always-failing date parser, modelling pandas coercing "not-a-date" to NaT. -/
def noParseDate : String → Option (Fin 7) := fun _ => none

/-- A concrete stand-in for the float `log1p` function. -/
def zeroLog1p : ℤ → ℚ := fun _ => 0

/-- Witness for C5: with parsers that fail on "bad-time" and "not-a-date",
the encoded hour is 12 and day_of_week and is_weekend are 0. -/
theorem encodeDefaults_spec_witness :
    noParseTime "bad-time" = none ∧ noParseDate "not-a-date" = none ∧
    hourOf noParseTime "bad-time" = 12 ∧
    (encodeNumeric zeroLog1p noParseTime noParseDate "Instagram" "not-a-date"
      "bad-time" 1000 0).getD 1 0 = 12 ∧
    dayOfWeekOf noParseDate "not-a-date" = 0 ∧
    isWeekend (dayOfWeekOf noParseDate "not-a-date") = 0 ∧
    (encodeNumeric zeroLog1p noParseTime noParseDate "Instagram" "not-a-date"
      "bad-time" 1000 0).getD 2 0 = 0 ∧
    (encodeNumeric zeroLog1p noParseTime noParseDate "Instagram" "not-a-date"
      "bad-time" 1000 0).getD 3 0 = 0 := by
  have h1 := (encodeDefaults_spec zeroLog1p noParseTime noParseDate
    "Instagram" "not-a-date" "bad-time" 1000 0).1 rfl
  have h2 := (encodeDefaults_spec zeroLog1p noParseTime noParseDate
    "Instagram" "not-a-date" "bad-time" 1000 0).2 rfl
  exact ⟨rfl, rfl, h1.1, h1.2, h2.1, h2.2.1, h2.2.2.1, h2.2.2.2⟩

/-- C2: postprocessing applies the scaler inverse first and then, exactly for
the four count targets (indices 0–3: likes, comments, shares, clicks),
`expm1 (max value 0)`, while timing_quality_score (index 4) gets no log
inversion; every final value is clamped non-negative before rounding, so the
output is never negative in any field, for every raw vector and every scaler
and expm1 function. -/
theorem predictPost_spec (scalerInv : (Fin 5 → ℚ) → (Fin 5 → ℚ))
    (expm1 : ℚ → ℚ) (raw : Fin 5 → ℚ) :
    (∀ i : Fin 5, 0 ≤ predictPost scalerInv expm1 raw i) ∧
    predictPost scalerInv expm1 raw 0 =
      round2 (max (expm1 (max (scalerInv raw 0) 0)) 0) ∧
    predictPost scalerInv expm1 raw 1 =
      round2 (max (expm1 (max (scalerInv raw 1) 0)) 0) ∧
    predictPost scalerInv expm1 raw 2 =
      round2 (max (expm1 (max (scalerInv raw 2) 0)) 0) ∧
    predictPost scalerInv expm1 raw 3 =
      round2 (max (expm1 (max (scalerInv raw 3) 0)) 0) ∧
    predictPost scalerInv expm1 raw 4 =
      round2 (max (scalerInv raw 4) 0) := by
  refine ⟨fun i => postprocessVal_nonneg _ _ _, ?_, ?_, ?_, ?_, ?_⟩ <;> rfl

/-- C8: the per-request prediction pipeline run in inference mode is
independent of the dropout layer's stochastic mask, so two calls with the
same inputs and the same loaded weights, tokenizer and scaler yield
identical outputs. -/
theorem predictPipeline_deterministic {V : Type} (A : Arch V)
    (sample1 sample2 : V → V) (texts_to_sequences : String → List ℕ)
    (scalerInv : (Fin 5 → ℚ) → (Fin 5 → ℚ)) (expm1 : ℚ → ℚ) (log1p : ℤ → ℚ)
    (parseTime : String → Option (Fin 24)) (parseDate : String → Option (Fin 7))
    (caption content platform post_date post_time : String)
    (followers ad_boost : ℤ) (i : Fin 5) :
    predictPipeline A sample1 texts_to_sequences scalerInv expm1 log1p
        parseTime parseDate caption content platform post_date post_time
        followers ad_boost i =
      predictPipeline A sample2 texts_to_sequences scalerInv expm1 log1p
        parseTime parseDate caption content platform post_date post_time
        followers ad_boost i := rfl

/-- C10: the constructor is a process-wide singleton: starting from a fresh
class state, every constructor call returns the very same instance as the
first call, that instance is created with `_loaded = False`, and the class
attribute always caches that first instance. -/
theorem predictorNew_singleton :
    (nthNew 0).1.loaded = false ∧
    (∀ n : ℕ, (nthNew n).1 = (nthNew 0).1) ∧
    (∀ n : ℕ, (nthNew n).2.1 = some (nthNew 0).1) := by
  have key : ∀ n : ℕ, nthNew n = (⟨0, false⟩, (some ⟨0, false⟩, 1)) := by
    intro n
    induction n with
    | zero => rfl
    | succ k ih => simp [nthNew, ih, predictorNew]
  refine ⟨rfl, fun n => ?_, fun n => ?_⟩
  · rw [key n, key 0]
  · rw [key n, key 0]

/-! ### Lemmas about the load lifecycle -/

lemma load_of_loaded {M T S E : Type} (env : LoadEnv M T S E) (s : PState M T S)
    (h : s.loaded = true) : load env s = (none, s, []) := by
  simp [load, h]

lemma loadRest_take2 {M T S E : Type} (env : LoadEnv M T S E) (s : PState M T S)
    (a b : LoadEv) (rest : List LoadEv) :
    List.take 2 (loadRest env s (a :: b :: rest)).2.2 = [a, b] := by
  rcases htk : env.readTokenizer with e | tk
  · simp [loadRest, htk]
  · rcases hsc : env.readScaler with e2 | sc <;> simp [loadRest, htk, hsc]

lemma loadRest_mem {M T S E : Type} (env : LoadEnv M T S E) (s : PState M T S)
    (evs : List LoadEv) (ev : LoadEv) (hev : ev ∈ evs) :
    ev ∈ (loadRest env s evs).2.2 := by
  rcases htk : env.readTokenizer with e | tk
  · simp only [loadRest, htk]
    exact List.mem_append_left _ hev
  · rcases hsc : env.readScaler with e2 | sc <;>
    · simp only [loadRest, htk, hsc]
      exact List.mem_append_left _ hev

lemma loadRest_not_mem {M T S E : Type} (env : LoadEnv M T S E) (s : PState M T S)
    (evs : List LoadEv) (ev : LoadEv) (hev : ev ∉ evs)
    (h1 : ev ≠ LoadEv.loadTokenizer) (h2 : ev ≠ LoadEv.loadScaler) :
    ev ∉ (loadRest env s evs).2.2 := by
  rcases htk : env.readTokenizer with e | tk
  · simp [loadRest, htk, List.mem_append, hev, h1, h2]
  · rcases hsc : env.readScaler with e2 | sc <;>
      simp [loadRest, htk, hsc, List.mem_append, hev, h1, h2]

lemma loadRest_isSome_loaded {M T S E : Type} (env : LoadEnv M T S E)
    (s : PState M T S) (evs : List LoadEv)
    (h : (loadRest env s evs).1.isSome = true) :
    (loadRest env s evs).2.1.loaded = s.loaded := by
  rcases htk : env.readTokenizer with e | tk
  · simp [loadRest, htk]
  · rcases hsc : env.readScaler with e2 | sc
    · simp [loadRest, htk, hsc]
    · simp [loadRest, htk, hsc] at h

lemma loadRest_ok_state {M T S E : Type} (env : LoadEnv M T S E)
    (s : PState M T S) (evs : List LoadEv)
    (h : (loadRest env s evs).1 = none) :
    (loadRest env s evs).2.1.loaded = true ∧
    (loadRest env s evs).2.1.model = s.model ∧
    (loadRest env s evs).2.1.tokenizer.isSome = true ∧
    (loadRest env s evs).2.1.y_scaler.isSome = true := by
  rcases htk : env.readTokenizer with e | tk
  · simp [loadRest, htk] at h
  · rcases hsc : env.readScaler with e2 | sc
    · simp [loadRest, htk, hsc] at h
    · simp [loadRest, htk, hsc]

lemma load_take2 {M T S E : Type} (env : LoadEnv M T S E) (s : PState M T S)
    (h : s.loaded = false) :
    List.take 2 (load env s).2.2 = [LoadEv.buildArch, LoadEv.dummyPass] := by
  rcases hd : env.modelPredictE env.buildTransformer (List.replicate MAX_LEN 0)
      (List.replicate NUM_FEATURES 0) with e | u
  · simp [load, h, hd]
  · rcases hw : env.loadWeightsInto env.buildTransformer with e1 | m1
    · rcases hf : env.loadFullCompat with e2 | m2
      · simp [load, h, hd, hw, hf]
      · simp only [load, h, hd, hw, hf, Bool.false_eq_true, if_false]
        exact loadRest_take2 env _ _ _ _
    · simp only [load, h, hd, hw, Bool.false_eq_true, if_false]
      exact loadRest_take2 env _ _ _ _

lemma load_isSome_loaded {M T S E : Type} (env : LoadEnv M T S E)
    (s : PState M T S) (h : (load env s).1.isSome = true) :
    (load env s).2.1.loaded = false := by
  rcases hl : s.loaded with _ | _
  · rcases hd : env.modelPredictE env.buildTransformer (List.replicate MAX_LEN 0)
        (List.replicate NUM_FEATURES 0) with e | u
    · simp [load, hl, hd]
    · rcases hw : env.loadWeightsInto env.buildTransformer with e1 | m1
      · rcases hf : env.loadFullCompat with e2 | m2
        · simp [load, hl, hd, hw, hf]
        · simp only [load, hl, hd, hw, hf, Bool.false_eq_true, if_false] at h ⊢
          exact (loadRest_isSome_loaded env _ _ h).trans rfl
      · simp only [load, hl, hd, hw, Bool.false_eq_true, if_false] at h ⊢
        exact (loadRest_isSome_loaded env _ _ h).trans rfl
  · simp [load_of_loaded env s hl] at h

lemma load_ok_loaded {M T S E : Type} (env : LoadEnv M T S E)
    (s : PState M T S) (h : (load env s).1 = none) :
    (load env s).2.1.loaded = true := by
  rcases hl : s.loaded with _ | _
  · rcases hd : env.modelPredictE env.buildTransformer (List.replicate MAX_LEN 0)
        (List.replicate NUM_FEATURES 0) with e | u
    · simp [load, hl, hd] at h
    · rcases hw : env.loadWeightsInto env.buildTransformer with e1 | m1
      · rcases hf : env.loadFullCompat with e2 | m2
        · simp [load, hl, hd, hw, hf] at h
        · simp only [load, hl, hd, hw, hf, Bool.false_eq_true, if_false] at h ⊢
          exact (loadRest_ok_state env _ _ h).1
      · simp only [load, hl, hd, hw, Bool.false_eq_true, if_false] at h ⊢
        exact (loadRest_ok_state env _ _ h).1
  · simp [load_of_loaded env s hl, hl]

lemma load_ok_artifacts {M T S E : Type} (env : LoadEnv M T S E)
    (s : PState M T S) (h0 : s.loaded = false) (h : (load env s).1 = none) :
    (load env s).2.1.model.isSome = true ∧
    (load env s).2.1.tokenizer.isSome = true ∧
    (load env s).2.1.y_scaler.isSome = true := by
  rcases hd : env.modelPredictE env.buildTransformer (List.replicate MAX_LEN 0)
      (List.replicate NUM_FEATURES 0) with e | u
  · simp [load, h0, hd] at h
  · rcases hw : env.loadWeightsInto env.buildTransformer with e1 | m1
    · rcases hf : env.loadFullCompat with e2 | m2
      · simp [load, h0, hd, hw, hf] at h
      · simp only [load, h0, hd, hw, hf, Bool.false_eq_true, if_false] at h ⊢
        obtain ⟨-, hm, htk, hsc⟩ := loadRest_ok_state env _ _ h
        exact ⟨by simp [hm], htk, hsc⟩
    · simp only [load, h0, hd, hw, Bool.false_eq_true, if_false] at h ⊢
      obtain ⟨-, hm, htk, hsc⟩ := loadRest_ok_state env _ _ h
      exact ⟨by simp [hm], htk, hsc⟩

/-- C6: weight loading first runs the dummy forward pass (the first two steps
attempted are always the architecture build and the dummy pass), the compat
full-model load is attempted if and only if direct weight restoration raises,
if both restoration paths fail then `load()` raises the fallback's error (no
third path, no silent success), and the compatibility embedding accepts and
discards the `quantization_config` field. -/
theorem load_fallback_spec {M T S E : Type} (env : LoadEnv M T S E)
    (s : PState M T S) (h : s.loaded = false) :
    List.take 2 (load env s).2.2 = [LoadEv.buildArch, LoadEv.dummyPass] ∧
    (env.modelPredictE env.buildTransformer (List.replicate MAX_LEN 0)
        (List.replicate NUM_FEATURES 0) = Except.ok () →
      (LoadEv.fullLoadCompat ∈ (load env s).2.2 ↔
        ∃ e : E, env.loadWeightsInto env.buildTransformer = Except.error e)) ∧
    (∀ e1 e2 : E,
      env.modelPredictE env.buildTransformer (List.replicate MAX_LEN 0)
        (List.replicate NUM_FEATURES 0) = Except.ok () →
      env.loadWeightsInto env.buildTransformer = Except.error e1 →
      env.loadFullCompat = Except.error e2 →
      (load env s).1 = some e2) ∧
    (∀ (A E2 : Type) (superInit : A → E2) (args : A) (qc : Option ℕ),
      compatEmbedding superInit args qc = superInit args) := by
  refine ⟨load_take2 env s h, fun hok => ?_, fun e1 e2 hok hw hf => ?_,
    fun A E2 superInit args qc => rfl⟩
  · rcases hw : env.loadWeightsInto env.buildTransformer with e1 | m1
    · refine iff_of_true ?_ ⟨e1, rfl⟩
      rcases hf : env.loadFullCompat with e2 | m2
      · simp [load, h, hok, hw, hf]
      · simp only [load, h, hok, hw, hf, Bool.false_eq_true, if_false]
        exact loadRest_mem env _ _ _ (by simp)
    · refine iff_of_false ?_ ?_
      · simp only [load, h, hok, hw, Bool.false_eq_true, if_false]
        exact loadRest_not_mem env _ _ _ (by simp) (by simp) (by simp)
      · rintro ⟨e, he⟩
        exact Except.noConfusion he
  · simp [load, h, hok, hw, hf]

/-- C7: `load()` is idempotent — calling it when already loaded returns the
state unchanged with no steps performed, and after one successful `load()` a
second `load()` changes nothing, so `predict()` after loading twice equals
`predict()` after loading once, for every prediction input. -/
theorem load_idempotent_spec {M T S E : Type} (env : LoadEnv M T S E)
    (s : PState M T S) :
    (s.loaded = true → load env s = (none, s, [])) ∧
    ((load env s).1 = none →
      load env ((load env s).2.1) = (none, (load env s).2.1, []) ∧
      ∀ (runModel : M → List ℕ → List ℚ → Fin 5 → ℚ)
        (tokApply : T → String → List ℕ)
        (scalerApply : S → (Fin 5 → ℚ) → Fin 5 → ℚ)
        (expm1 : ℚ → ℚ) (log1p : ℤ → ℚ)
        (parseTime : String → Option (Fin 24))
        (parseDate : String → Option (Fin 7))
        (caption content platform post_date post_time : String)
        (followers ad_boost : ℤ),
        predictOut runModel tokApply scalerApply expm1 log1p parseTime
          parseDate (load env ((load env s).2.1)).2.1 caption content platform
          post_date post_time followers ad_boost =
        predictOut runModel tokApply scalerApply expm1 log1p parseTime
          parseDate ((load env s).2.1) caption content platform post_date
          post_time followers ad_boost) := by
  refine ⟨fun h => load_of_loaded env s h, fun h => ?_⟩
  have h1 : (load env s).2.1.loaded = true := load_ok_loaded env s h
  have h2 : load env ((load env s).2.1) = (none, (load env s).2.1, []) :=
    load_of_loaded env _ h1
  refine ⟨h2, fun runModel tokApply scalerApply expm1 log1p pT pD c ct p d t
    f a => ?_⟩
  rw [h2]

/-- C9: if `load()` raises then `_loaded` remains `False`; `_loaded` is set to
`True` only when `load()` completes without raising, at which point the model,
tokenizer and scaler have all been restored; and a subsequent `load()` after a
failure re-attempts the whole sequence from the architecture build. -/
theorem load_flag_spec {M T S E : Type} (env : LoadEnv M T S E)
    (s : PState M T S) :
    (∀ e : E, (load env s).1 = some e → (load env s).2.1.loaded = false) ∧
    ((load env s).2.1.loaded = true → (load env s).1 = none) ∧
    (s.loaded = false → (load env s).1 = none →
      (load env s).2.1.model.isSome = true ∧
      (load env s).2.1.tokenizer.isSome = true ∧
      (load env s).2.1.y_scaler.isSome = true) ∧
    (∀ env2 : LoadEnv M T S E, (load env s).1.isSome = true →
      List.take 2 (load env2 ((load env s).2.1)).2.2 =
        [LoadEv.buildArch, LoadEv.dummyPass]) := by
  refine ⟨fun e he => load_isSome_loaded env s (by rw [he]; rfl), ?_,
    load_ok_artifacts env s, fun env2 hs => ?_⟩
  · intro hld
    rcases hres : (load env s).1 with _ | e
    · rfl
    · have hfalse := load_isSome_loaded env s (by rw [hres]; rfl)
      rw [hld] at hfalse
      exact absurd hfalse (by simp)
  · exact load_take2 env2 _ (load_isSome_loaded env s hs)

/-! ### Concrete witnesses for the load lifecycle -/

/-- A load environment in which every step succeeds. -/
def envOkNat : LoadEnv ℕ ℕ ℕ ℕ :=
  ⟨7, fun _ _ _ => Except.ok (), fun m => Except.ok (m + 1), Except.ok 99,
    Except.ok 3, Except.ok 4⟩

/-- A load environment in which both weight-restoration paths fail. -/
def envBothFailNat : LoadEnv ℕ ℕ ℕ ℕ :=
  ⟨7, fun _ _ _ => Except.ok (), fun _ => Except.error 11, Except.error 22,
    Except.ok 3, Except.ok 4⟩

/-- A load environment in which scaler unpickling fails. -/
def envScalerFailNat : LoadEnv ℕ ℕ ℕ ℕ :=
  ⟨7, fun _ _ _ => Except.ok (), fun m => Except.ok (m + 1), Except.ok 99,
    Except.ok 3, Except.error 44⟩

/-- The fresh predictor state: `_loaded = False`, no artifacts. -/
def s0Nat : PState ℕ ℕ ℕ := ⟨false, none, none, none⟩

/-- An already-loaded predictor state. -/
def sLoadedNat : PState ℕ ℕ ℕ := ⟨true, some 1, some 2, some 3⟩

/-- A concrete model-forward interpretation. -/
def runModelNat : ℕ → List ℕ → List ℚ → Fin 5 → ℚ := fun _ _ _ _ => 0

/-- A concrete tokenizer interpretation. -/
def tokApplyNat : ℕ → String → List ℕ := fun _ _ => []

/-- A concrete scaler interpretation. -/
def scalerApplyNat : ℕ → (Fin 5 → ℚ) → Fin 5 → ℚ := fun _ f => f

/-- A concrete stand-in for the float `expm1` function. -/
def idExpm1 : ℚ → ℚ := fun q => q

/-- Witness for C6: in an environment where both weight-restoration paths
fail, the first two steps are the build and the dummy pass, the fallback is
attempted, `load()` raises the fallback's error 22, and the compat embedding
discards its `quantization_config` argument. -/
theorem load_fallback_spec_witness :
    s0Nat.loaded = false ∧
    List.take 2 (load envBothFailNat s0Nat).2.2 =
      [LoadEv.buildArch, LoadEv.dummyPass] ∧
    (LoadEv.fullLoadCompat ∈ (load envBothFailNat s0Nat).2.2 ↔
      ∃ e : ℕ, envBothFailNat.loadWeightsInto envBothFailNat.buildTransformer =
        Except.error e) ∧
    (load envBothFailNat s0Nat).1 = some 22 ∧
    compatEmbedding (fun n : ℕ => n + 1) 5 (some 9) = 6 := by
  have h := load_fallback_spec envBothFailNat s0Nat rfl
  exact ⟨rfl, h.1, h.2.1 rfl, h.2.2.1 11 22 rfl rfl rfl,
    (h.2.2.2 ℕ ℕ (fun n => n + 1) 5 (some 9)).trans rfl⟩

/-- Witness for C7: with every step succeeding, loading an already-loaded
state is a no-op, a second load after a successful first load is a no-op, and
a concrete prediction is unchanged by the second load. -/
theorem load_idempotent_spec_witness :
    sLoadedNat.loaded = true ∧
    load envOkNat sLoadedNat = (none, sLoadedNat, []) ∧
    (load envOkNat s0Nat).1 = none ∧
    load envOkNat ((load envOkNat s0Nat).2.1) =
      (none, (load envOkNat s0Nat).2.1, []) ∧
    predictOut runModelNat tokApplyNat scalerApplyNat idExpm1 zeroLog1p
      noParseTime noParseDate (load envOkNat ((load envOkNat s0Nat).2.1)).2.1
      "cap" "con" "Instagram" "2024-06-10" "09:30" 1000 0 =
    predictOut runModelNat tokApplyNat scalerApplyNat idExpm1 zeroLog1p
      noParseTime noParseDate ((load envOkNat s0Nat).2.1)
      "cap" "con" "Instagram" "2024-06-10" "09:30" 1000 0 := by
  have h0 : (load envOkNat s0Nat).1 = none := rfl
  have h := (load_idempotent_spec envOkNat s0Nat).2 h0
  exact ⟨rfl, (load_idempotent_spec envOkNat sLoadedNat).1 rfl, h0, h.1,
    h.2 runModelNat tokApplyNat scalerApplyNat idExpm1 zeroLog1p noParseTime
      noParseDate "cap" "con" "Instagram" "2024-06-10" "09:30" 1000 0⟩

/-- Witness for C9: when scaler unpickling fails, `load()` raises error 44
and `_loaded` stays `False`, a retry starts again from the architecture
build, and in the all-success environment `load()` completes with all three
artifacts restored. -/
theorem load_flag_spec_witness :
    (load envScalerFailNat s0Nat).1 = some 44 ∧
    (load envScalerFailNat s0Nat).2.1.loaded = false ∧
    List.take 2 (load envOkNat ((load envScalerFailNat s0Nat).2.1)).2.2 =
      [LoadEv.buildArch, LoadEv.dummyPass] ∧
    (load envOkNat s0Nat).1 = none ∧
    (load envOkNat s0Nat).2.1.model.isSome = true ∧
    (load envOkNat s0Nat).2.1.tokenizer.isSome = true ∧
    (load envOkNat s0Nat).2.1.y_scaler.isSome = true := by
  have h := load_flag_spec envScalerFailNat s0Nat
  have h2 := load_flag_spec envOkNat s0Nat
  obtain ⟨hm, htk, hsc⟩ := h2.2.2.1 rfl rfl
  exact ⟨rfl, h.1 44 rfl, h.2.2.2 envOkNat rfl, rfl, hm, htk, hsc⟩

end CampaignPredictor
